/-
Verification of the closed-loop rollout controller of motion-policy-networks.

The two Python sources are embedded shallowly:
  * `MpinetsRos`   models src/interactive_demo/mpinets_ros/nodes/planning_node.py
    (class `Planner.plan`, `PlanningNode.clean_point_cloud`,
    `PlanningNode.load_primitive_problem_data`).
  * `RunInference` models src/mpinets/run_inference_nocyl.py
    (`rollout_until_success`, `make_point_cloud_from_primitives`,
    `make_point_cloud_from_problem`, `calculate_metrics`, `visualize_results`).

External capabilities (the policy network `mdl`, the robot surface sampler
`fk_sampler`, forward kinematics `FrankaRobot.fk` / `FrankaRealRobot.fk`, and
the quaternion-difference angle computed by numpy/quaternion code) are modelled
as oracle fields of `RolloutEnv`, following section 6 of the design document:
they are injected black boxes with documented shapes.  Real-valued machine
arithmetic is embedded with exact rationals.  The Euclidean-norm comparison
`np.linalg.norm(eff - target) < 0.01` is embedded as the equivalent
squared-distance comparison `sqDist < 1/10000`; the lemma
`sqrt_sqDist_lt_centimeter_iff` proves this is exactly the Euclidean test.
-/
import Mathlib

/-- Number of joints of the Franka arm: configurations are 7-vectors. -/
abbrev Config : Type := Fin 7 → ℚ

/-- Constant shared by both source files (line 52 / line 48). -/
def NUM_ROBOT_POINTS : ℕ := 2048

/-- Constant shared by both source files (line 53 / line 49). -/
def NUM_OBSTACLE_POINTS : ℕ := 4096

/-- Constant shared by both source files (line 54 / line 50). -/
def NUM_TARGET_POINTS : ℕ := 128

/-- Total number of rows of every scene point cloud. -/
def TOTAL_POINTS : ℕ := NUM_ROBOT_POINTS + NUM_OBSTACLE_POINTS + NUM_TARGET_POINTS

/-- A scene point cloud: a fixed-size buffer of rows, each with 4 columns
(x, y, z, label), exactly the `[TOTAL_POINTS x 4]` torch tensor. -/
abbrev Cloud : Type := Fin TOTAL_POINTS → Fin 4 → ℚ

/-- Per-joint limit table, `FrankaRealRobot.JOINT_LIMITS` (an external table;
column 0 is the lower bound, column 1 the upper bound). -/
structure JointLimits where
  low : Fin 7 → ℚ
  high : Fin 7 → ℚ

/-- Modelled from the spec: `normalize_franka_joints` lives in
`mpinets/utils.py`, which is not among the provided source files.  Section 3 of
the design document describes it as the pure element-wise affine map sending
each joint value into [-1, 1] using the known per-joint limits. -/
def normalize_franka_joints (L : JointLimits) (q : Config) : Config :=
  fun i => 2 * (q i - L.low i) / (L.high i - L.low i) - 1

/-- Modelled from the spec: `unnormalize_franka_joints` lives in
`mpinets/utils.py`, which is not among the provided source files.  It is the
inverse affine map of `normalize_franka_joints`, sending [-1, 1] back to the
per-joint limit interval. -/
def unnormalize_franka_joints (L : JointLimits) (v : Config) : Config :=
  fun i => (v i + 1) / 2 * (L.high i - L.low i) + L.low i

/-- Element-wise `torch.clamp(x, min=-1, max=1)`
(planning_node.py line 136, run_inference_nocyl.py line 172). -/
def clampNorm (v : Config) : Config :=
  fun i => max (-1) (min 1 (v i))

/-- Squared Euclidean distance between two 3d points.  The sources compare
`np.linalg.norm(eff_pose._xyz - target._xyz) < 0.01`; squaring both sides is
the exact same test (see `sqrt_sqDist_lt_centimeter_iff`). -/
def sqDist (a b : Fin 3 → ℚ) : ℚ :=
  (a 0 - b 0) ^ 2 + (a 1 - b 1) ^ 2 + (a 2 - b 2) ^ 2

/-- The external capabilities injected into the rollout loop, together with the
data of one planning problem (target pose).  Fields:
  * `limits`        — the per-joint limit table used by normalize/unnormalize
                      and by the precondition assertions;
  * `mdl`           — the policy network: (point cloud, normalized q) ↦ delta;
  * `robotSampler`  — `fk_sampler.sample(q, NUM_ROBOT_POINTS)`: row index ↦ xyz;
  * `targetPoints`  — `fk_sampler.sample_end_effector(target, NUM_TARGET_POINTS)`;
  * `effXyz`        — the translation part of `FrankaRobot.fk(q, "right_gripper")`;
  * `relAngleDeg`   — `degrees((eff_quat * target_quat.conjugate).radians)`,
                      the shortest-path relative-rotation angle in degrees
                      (quaternion arithmetic is an external capability);
  * `targetXyz`     — the translation part of the target pose. -/
structure RolloutEnv where
  limits : JointLimits
  mdl : Cloud → Config → Config
  robotSampler : Config → ℕ → Fin 3 → ℚ
  targetPoints : ℕ → Fin 3 → ℚ
  effXyz : Config → Fin 3 → ℚ
  relAngleDeg : Config → ℚ
  targetXyz : Fin 3 → ℚ

/-- The success criterion evaluated after each step, transcribed from
planning_node.py lines 145-153 and run_inference_nocyl.py lines 180-186:
within 1 cm (squared-distance form of the Euclidean test) and within 15
degrees of the target. -/
def reachedTarget (env : RolloutEnv) (q : Config) : Bool :=
  decide (sqDist (env.effXyz q) env.targetXyz < 1 / 10000) &&
    decide (|env.relAngleDeg q| < 15)

/-- Overwrite columns 0..2 of rows [lo, lo+n) of a cloud with fresh points,
i.e. the slice assignment `pc[lo : lo + n, :3] = pts`. -/
def writeXyz (pc : Cloud) (lo n : ℕ) (pts : ℕ → Fin 3 → ℚ) : Cloud :=
  fun i j =>
    if hj : (j : ℕ) < 3 then
      if lo ≤ (i : ℕ) ∧ (i : ℕ) < lo + n then pts ((i : ℕ) - lo) ⟨(j : ℕ), hj⟩
      else pc i j
    else pc i j

/-- The `torch.cat((zeros(NR,4), ones(NO,4), 2*ones(NT,4)), dim=0)` base buffer
(planning_node.py lines 114-121, run_inference_nocyl.py lines 70-77 and
117-124): every column of a row holds the segment value before the xyz columns
are overwritten. -/
def stackedLabels : Cloud := fun i _ =>
  if (i : ℕ) < NUM_ROBOT_POINTS then 0
  else if (i : ℕ) < NUM_ROBOT_POINTS + NUM_OBSTACLE_POINTS then 1
  else 2

/-- The common scene-point-cloud assembly of `Planner.plan` (lines 114-128),
`make_point_cloud_from_primitives` (lines 117-133) and
`make_point_cloud_from_problem` (lines 70-89): base label buffer, then the
three xyz slice assignments for robot, obstacle and target rows, in that
order. -/
def buildPointCloud (robotPts obstaclePts targetPts : ℕ → Fin 3 → ℚ) : Cloud :=
  writeXyz
    (writeXyz
      (writeXyz stackedLabels 0 NUM_ROBOT_POINTS robotPts)
      NUM_ROBOT_POINTS NUM_OBSTACLE_POINTS obstaclePts)
    (NUM_ROBOT_POINTS + NUM_OBSTACLE_POINTS) NUM_TARGET_POINTS targetPts

/-- The in-loop robot-segment overwrite `point_cloud[:, :NUM_ROBOT_POINTS, :3]
= robot_points` (planning_node.py line 157, run_inference_nocyl.py line 189). -/
def updateRobotPoints (pc : Cloud) (pts : ℕ → Fin 3 → ℚ) : Cloud :=
  writeXyz pc 0 NUM_ROBOT_POINTS pts

namespace MpinetsRos

/-- planning_node.py line 51. -/
def MAX_ROLLOUT_LENGTH : ℕ := 30

/-- planning_node.py line 56: with `PROBLEM_SET = True` the workspace masks in
`clean_point_cloud` are skipped. -/
def PROBLEM_SET : Bool := true

/-- The mutable state threaded through the `for` loop of `Planner.plan`
(planning_node.py lines 131-157): current normalized configuration, the
accumulated trajectory, the scene point cloud, and the `success` flag. -/
structure State where
  qNorm : Config
  trajectory : List Config
  pointCloud : Cloud
  success : Bool

/-- Line 136: `q_norm = torch.clamp(q_norm + self.mdl(point_cloud, q_norm),
min=-1, max=1)`. -/
def stepConfigNorm (env : RolloutEnv) (s : State) : Config :=
  clampNorm (s.qNorm + env.mdl s.pointCloud s.qNorm)

/-- Line 137: `qt = unnormalize_franka_joints(q_norm)`. -/
def stepConfig (env : RolloutEnv) (s : State) : Config :=
  unnormalize_franka_joints env.limits (stepConfigNorm env s)

/-- One iteration of the `for` loop of `Planner.plan` (lines 134-157).  The
Bool records whether the `break` on lines 154-155 fired. -/
def planStep (env : RolloutEnv) (s : State) : State × Bool :=
  let qn := stepConfigNorm env s
  let qt := stepConfig env s
  let traj := s.trajectory ++ [qt]
  if reachedTarget env qt then
    (⟨qn, traj, s.pointCloud, true⟩, true)
  else
    (⟨qn, traj, updateRobotPoints s.pointCloud (env.robotSampler qt), s.success⟩, false)

/-- `for _ in range(n)` around `planStep`, stopping early when the break
fires. -/
def planLoop (env : RolloutEnv) : ℕ → State → State
  | 0, s => s
  | n + 1, s =>
    let r := planStep env s
    if r.2 then r.1 else planLoop env n r.1

/-- `Planner.plan` after the precondition assertions (lines 112-158): build
the scene cloud, initialize `trajectory = [q]` and the normalized
configuration, run the loop, and return `(success, trajectory)`. -/
def planBody (env : RolloutEnv) (q0 : Config) (obstaclePts : ℕ → Fin 3 → ℚ) :
    Bool × List Config :=
  let pc := buildPointCloud (env.robotSampler q0) obstaclePts env.targetPoints
  let s := planLoop env MAX_ROLLOUT_LENGTH
    ⟨normalize_franka_joints env.limits q0, [q0], pc, false⟩
  (s.success, s.trajectory)

/-- Message of the joint-limit assertions on planning_node.py lines 106-111. -/
def limitsMsg : String := "Configuration is outside of feasible limits"

/-- `Planner.plan` (lines 84-158) with its precondition assertions
`JOINT_LIMITS[:, 0] <= q0` and `q0 <= JOINT_LIMITS[:, 1]` made explicit as an
`Except`: an `AssertionError` is modelled as `.error`.  (The obstacle-shape
assertion on line 100 is enforced by the type of `obstaclePts`.) -/
def plan (env : RolloutEnv) (q0 : Config) (obstaclePts : ℕ → Fin 3 → ℚ) :
    Except String (Bool × List Config) :=
  if (∀ i, env.limits.low i ≤ q0 i) ∧ (∀ i, q0 i ≤ env.limits.high i) then
    .ok (planBody env q0 obstaclePts)
  else
    .error limitsMsg

end MpinetsRos

namespace RunInference

/-- run_inference_nocyl.py line 55. -/
def MAX_ROLLOUT_LENGTH : ℕ := 150

/-- The mutable state threaded through the `for` loop of
`rollout_until_success` (run_inference_nocyl.py lines 159-189).  This loop
keeps no success flag in its state: the local `success` variable on line 166 is
never written again. -/
structure State where
  qNorm : Config
  trajectory : List Config
  pointCloud : Cloud

/-- Line 172: `q_norm = torch.clamp(q_norm + mdl(point_cloud, q_norm),
min=-1, max=1)`. -/
def stepConfigNorm (env : RolloutEnv) (s : State) : Config :=
  clampNorm (s.qNorm + env.mdl s.pointCloud s.qNorm)

/-- Line 173: `qt = unnormalize_franka_joints(q_norm)`. -/
def stepConfig (env : RolloutEnv) (s : State) : Config :=
  unnormalize_franka_joints env.limits (stepConfigNorm env s)

/-- One iteration of the `for` loop of `rollout_until_success`
(lines 171-189).  The Bool records whether the `break` on line 187 fired. -/
def rolloutStep (env : RolloutEnv) (s : State) : State × Bool :=
  let qn := stepConfigNorm env s
  let qt := stepConfig env s
  let traj := s.trajectory ++ [qt]
  if reachedTarget env qt then
    (⟨qn, traj, s.pointCloud⟩, true)
  else
    (⟨qn, traj, updateRobotPoints s.pointCloud (env.robotSampler qt)⟩, false)

/-- `for i in range(n)` around `rolloutStep`.  The returned Bool records
whether the loop stopped through the `break` (rather than by exhausting its
budget). -/
def rolloutLoop (env : RolloutEnv) : ℕ → State → State × Bool
  | 0, s => (s, false)
  | n + 1, s =>
    let r := rolloutStep env s
    if r.2 then (r.1, true) else rolloutLoop env n r.1

/-- `rollout_until_success` (lines 137-191): initialize `trajectory = [q]` and
the normalized configuration, run the loop over the supplied point cloud, and
return the trajectory. -/
def rollout_until_success (env : RolloutEnv) (q0 : Config) (pc : Cloud) :
    List Config :=
  (rolloutLoop env MAX_ROLLOUT_LENGTH
    ⟨normalize_franka_joints env.limits q0, [q0], pc⟩).1.trajectory

end RunInference

/-- Obstacle primitives: `geometrout.primitive.Cuboid` and `Cylinder`.  A
cuboid carries its center, its dimensions `[dim_x, dim_y, dim_z]` and its
orientation quaternion `[w, x, y, z]`; a cylinder carries center, radius,
height and the same quaternion. -/
inductive Obstacle where
  | cuboid (center : Fin 3 → ℚ) (dims : Fin 3 → ℚ) (quat : Fin 4 → ℚ)
  | cylinder (center : Fin 3 → ℚ) (radius : ℚ) (height : ℚ) (quat : Fin 4 → ℚ)
deriving DecidableEq

/-- The body of the cylinder-replacement loop appearing in
planning_node.py lines 264-270 and run_inference_nocyl.py lines 344-350:
`if isinstance(obs, Cylinder): obstacles[idx] = Cuboid(obs.center,
[2*obs.radius, 2*obs.radius, obs.height], quat_of(obs.pose))`. -/
def replaceCylinder (o : Obstacle) : Obstacle :=
  match o with
  | .cylinder c r h q => .cuboid c ![2 * r, 2 * r, h] q
  | .cuboid c d q => .cuboid c d q

/-- The whole `for idx, obs in enumerate(obstacles)` replacement loop: the
in-place assignment at each index is a map over the list. -/
def substituteCylinders (obs : List Obstacle) : List Obstacle :=
  obs.map replaceCylinder

namespace MpinetsRos

/-- Obstacle list handed to `construct_mixed_point_cloud` by
`PlanningNode.load_primitive_problem_data` (planning_node.py lines 263-273):
the cylinder-replacement loop runs before any sampling. -/
def loadPrimitiveProblemObstacles (obs : List Obstacle) : List Obstacle :=
  substituteCylinders obs

end MpinetsRos

namespace RunInference

/-- Obstacle list handed to `make_point_cloud_from_primitives` by
`visualize_results` (run_inference_nocyl.py lines 344-357): the
cylinder-replacement loop runs before any sampling. -/
def visualizeResultsObstacles (obs : List Obstacle) : List Obstacle :=
  substituteCylinders obs

/-- Obstacle list handed to `make_point_cloud_from_primitives` by
`calculate_metrics` (run_inference_nocyl.py lines 268-278): `problem.obstacles`
is passed through unchanged — this path contains no cylinder-replacement
loop. -/
def calculateMetricsObstacles (obs : List Obstacle) : List Obstacle :=
  obs

end RunInference

/-- One draw of `k` pairwise-distinct members of `pool`, driven by the RNG
stream `rand`: pick position `rand k mod pool.length`, then continue on the
pool with that member removed.  This is the standard without-replacement
semantics of `np.random.choice(len, size=k, replace=False)` with the random
stream abstracted. -/
def drawDistinct (rand : ℕ → ℕ) : ℕ → List ℕ → List ℕ
  | 0, _ => []
  | _ + 1, [] => []
  | k + 1, a :: as =>
    let x := (a :: as).get ⟨rand k % (a :: as).length, Nat.mod_lt _ (Nat.succ_pos as.length)⟩
    x :: drawDistinct rand k ((a :: as).erase x)

/-- Error message raised by `np.random.choice(..., replace=False)` when the
requested sample is larger than the population. -/
def sampleTooLargeMsg : String :=
  "Cannot take a larger sample than population when replace is False"

/-- Model of `np.random.choice(n, size=k, replace=False)` (numpy is an
external library): a ValueError when `k > n`, otherwise `k` pairwise-distinct
indices below `n`, chosen by the abstracted random stream `rand`. -/
def npRandomChoice (n k : ℕ) (rand : ℕ → ℕ) : Except String (List ℕ) :=
  if n < k then .error sampleTooLargeMsg
  else .ok (drawDistinct rand k (List.range n))

namespace MpinetsRos

/-- The point-range test `0.25 < x < 1.35 and -0.3 < y < 1.6 and -0.05 < z
< 0.35` (planning_node.py lines 221-230). -/
def taskTabletopMask (p : Fin 3 → ℚ) : Bool :=
  decide (1 / 4 < p 0) && decide (p 0 < 27 / 20) &&
    decide (-3 / 10 < p 1) && decide (p 1 < 8 / 5) &&
    decide (-1 / 20 < p 2) && decide (p 2 < 7 / 20)

/-- The point-range test `-0.35 < x < 0.30 and -0.5 < y < 0.5 and -0.05 < z
< 0.05` (planning_node.py lines 232-241). -/
def mountTableMask (p : Fin 3 → ℚ) : Bool :=
  decide (-7 / 20 < p 0) && decide (p 0 < 3 / 10) &&
    decide (-1 / 2 < p 1) && decide (p 1 < 1 / 2) &&
    decide (-1 / 20 < p 2) && decide (p 2 < 1 / 20)

/-- `PlanningNode.clean_point_cloud` (planning_node.py lines 206-249) on the
row-paired `(xyz, rgba)` data: with `PROBLEM_SET = True` the workspace mask is
skipped, then `np.random.choice(len(xyz), size=NUM_OBSTACLE_POINTS,
replace=False)` selects the rows kept. -/
def clean_point_cloud (points : List ((Fin 3 → ℚ) × (Fin 4 → ℚ)))
    (rand : ℕ → ℕ) : Except String (List ((Fin 3 → ℚ) × (Fin 4 → ℚ))) :=
  let pts :=
    if !PROBLEM_SET then
      points.filter (fun pr => taskTabletopMask pr.1 || mountTableMask pr.1)
    else points
  (npRandomChoice pts.length NUM_OBSTACLE_POINTS rand).map
    (fun idxs => idxs.map (fun m => pts.getD m (fun _ => 0, fun _ => 0)))

end MpinetsRos

namespace RunInference

/-- `make_point_cloud_from_problem` (run_inference_nocyl.py lines 58-90):
sample robot and target points, draw `NUM_OBSTACLE_POINTS` random distinct
row indices of `obstacle_points`, and assemble the stacked labeled cloud.
`np.random.choice` raises when the source has fewer than
`NUM_OBSTACLE_POINTS` rows. -/
def make_point_cloud_from_problem (env : RolloutEnv) (q0 : Config)
    (obstacle_points : List (Fin 3 → ℚ)) (rand : ℕ → ℕ) :
    Except String Cloud :=
  (npRandomChoice obstacle_points.length NUM_OBSTACLE_POINTS rand).map
    (fun idxs =>
      buildPointCloud (env.robotSampler q0)
        (fun m => obstacle_points.getD (idxs.getD m 0) (fun _ => 0))
        env.targetPoints)

end RunInference

/-- Clamping to [-1, 1] produces values in [-1, 1]. -/
lemma clampNorm_bounds (v : Config) (i : Fin 7) :
    -1 ≤ clampNorm v i ∧ clampNorm v i ≤ 1 := by
  unfold clampNorm
  constructor
  · exact le_max_left _ _
  · exact max_le (by norm_num) (min_le_left _ _)

/-- The squared-distance comparison used in `reachedTarget` is exactly the
Euclidean comparison `np.linalg.norm(eff - target) < 0.01` of the sources. -/
lemma sqrt_sqDist_lt_centimeter_iff (a b : Fin 3 → ℚ) :
    Real.sqrt ((sqDist a b : ℚ) : ℝ) < 1 / 100 ↔ sqDist a b < 1 / 10000 := by
  rw [Real.sqrt_lt' (by norm_num : (0 : ℝ) < 1 / 100)]
  constructor
  · intro h
    have h' : ((sqDist a b : ℚ) : ℝ) < ((1 / 10000 : ℚ) : ℝ) := by
      refine h.trans_le ?_
      norm_num
    exact_mod_cast h'
  · intro h
    have h' : ((sqDist a b : ℚ) : ℝ) < ((1 / 10000 : ℚ) : ℝ) := by exact_mod_cast h
    refine h'.trans_le ?_
    norm_num

/-- Unfolding of the success criterion into its two strict comparisons. -/
lemma reachedTarget_iff (env : RolloutEnv) (q : Config) :
    reachedTarget env q = true ↔
      Real.sqrt ((sqDist (env.effXyz q) env.targetXyz : ℚ) : ℝ) < 1 / 100 ∧
        |env.relAngleDeg q| < 15 := by
  rw [sqrt_sqDist_lt_centimeter_iff]
  simp [reachedTarget]

/-- Rows at or above `lo + n`, rows below `lo`, and the label column are
untouched by a slice assignment. -/
lemma writeXyz_untouched (pc : Cloud) (lo n : ℕ) (pts : ℕ → Fin 3 → ℚ)
    (i : Fin TOTAL_POINTS) (j : Fin 4)
    (h : ¬(lo ≤ (i : ℕ) ∧ (i : ℕ) < lo + n) ∨ (j : ℕ) = 3) :
    writeXyz pc lo n pts i j = pc i j := by
  unfold writeXyz
  by_cases hj : (j : ℕ) < 3
  · rw [dif_pos hj]
    rcases h with h | h
    · rw [if_neg h]
    · exact absurd hj (by omega)
  · rw [dif_neg hj]

/-- Rows inside the slice take the new xyz values. -/
lemma writeXyz_inside (pc : Cloud) (lo n : ℕ) (pts : ℕ → Fin 3 → ℚ)
    (i : Fin TOTAL_POINTS) (j : Fin 4) (hj : (j : ℕ) < 3)
    (h : lo ≤ (i : ℕ) ∧ (i : ℕ) < lo + n) :
    writeXyz pc lo n pts i j = pts ((i : ℕ) - lo) ⟨(j : ℕ), hj⟩ := by
  unfold writeXyz
  rw [dif_pos hj, if_pos h]

/-- Robot-segment overwrites keep every row at or above `NUM_ROBOT_POINTS` and
the whole label column unchanged. -/
lemma updateRobotPoints_untouched (pc : Cloud) (pts : ℕ → Fin 3 → ℚ)
    (i : Fin TOTAL_POINTS) (j : Fin 4)
    (h : NUM_ROBOT_POINTS ≤ (i : ℕ) ∨ (j : ℕ) = 3) :
    updateRobotPoints pc pts i j = pc i j := by
  unfold updateRobotPoints
  refine writeXyz_untouched pc 0 NUM_ROBOT_POINTS pts i j ?_
  rcases h with h | h
  · left; omega
  · right; exact h

/-- A without-replacement draw of `k` indices has length `min k pool.length`. -/
lemma drawDistinct_length (rand : ℕ → ℕ) :
    ∀ (k : ℕ) (pool : List ℕ), (drawDistinct rand k pool).length = min k pool.length := by
  intro k
  induction k with
  | zero => intro pool; simp [drawDistinct]
  | succ k ih =>
    intro pool
    cases pool with
    | nil => simp [drawDistinct]
    | cons a as =>
      simp only [drawDistinct, List.length_cons]
      rw [ih]
      rw [List.length_erase_of_mem (List.get_mem _ _ _)]
      simp only [List.length_cons]
      omega

/-- Every drawn index comes from the pool. -/
lemma drawDistinct_subset (rand : ℕ → ℕ) :
    ∀ (k : ℕ) (pool : List ℕ) (x : ℕ), x ∈ drawDistinct rand k pool → x ∈ pool := by
  intro k
  induction k with
  | zero => intro pool x hx; simp [drawDistinct] at hx
  | succ k ih =>
    intro pool x hx
    cases pool with
    | nil => simp [drawDistinct] at hx
    | cons a as =>
      simp only [drawDistinct, List.mem_cons] at hx
      rcases hx with hx | hx
      · subst hx; exact List.get_mem _ _ _
      · exact List.mem_of_mem_erase (ih _ _ hx)

/-- A draw from a duplicate-free pool is duplicate-free: the chosen member is
removed from the pool before the remaining draws. -/
lemma drawDistinct_nodup (rand : ℕ → ℕ) :
    ∀ (k : ℕ) (pool : List ℕ), pool.Nodup → (drawDistinct rand k pool).Nodup := by
  intro k
  induction k with
  | zero => intro pool _; simp [drawDistinct]
  | succ k ih =>
    intro pool hp
    cases pool with
    | nil => simp [drawDistinct]
    | cons a as =>
      simp only [drawDistinct]
      refine List.nodup_cons.mpr ⟨?_, ih _ (hp.erase _)⟩
      intro hmem
      have h2 := drawDistinct_subset rand k _ _ hmem
      rw [hp.mem_erase_iff] at h2
      exact h2.1 rfl

/-- `np.random.choice(n, size=k, replace=False)` succeeds exactly on
populations of size at least `k`, returning `k` pairwise-distinct indices
below `n`. -/
lemma npRandomChoice_ok (n k : ℕ) (rand : ℕ → ℕ) (h : k ≤ n) :
    ∃ idxs : List ℕ, npRandomChoice n k rand = .ok idxs ∧
      idxs.length = k ∧ idxs.Nodup ∧ ∀ m ∈ idxs, m < n := by
  refine ⟨drawDistinct rand k (List.range n), ?_, ?_, ?_, ?_⟩
  · unfold npRandomChoice
    rw [if_neg (by omega)]
  · rw [drawDistinct_length, List.length_range]; omega
  · exact drawDistinct_nodup rand k _ (List.nodup_range n)
  · intro m hm
    exact List.mem_range.mp (drawDistinct_subset rand k _ _ hm)

/-- `np.random.choice` raises a ValueError when asked for more samples than
the population holds. -/
lemma npRandomChoice_err (n k : ℕ) (rand : ℕ → ℕ) (h : n < k) :
    npRandomChoice n k rand = .error sampleTooLargeMsg := by
  unfold npRandomChoice
  rw [if_pos h]

/-- When the success criterion fails at the freshly computed configuration,
the interactive loop body takes its else branch. -/
lemma planStep_of_not_reached (env : RolloutEnv) (s : MpinetsRos.State)
    (hr : reachedTarget env (MpinetsRos.stepConfig env s) = false) :
    MpinetsRos.planStep env s =
      (⟨MpinetsRos.stepConfigNorm env s,
        s.trajectory ++ [MpinetsRos.stepConfig env s],
        updateRobotPoints s.pointCloud
          (env.robotSampler (MpinetsRos.stepConfig env s)),
        s.success⟩, false) := by
  unfold MpinetsRos.planStep
  simp [hr]

/-- When the success criterion fails at the freshly computed configuration,
the offline loop body takes its else branch. -/
lemma rolloutStep_of_not_reached (env : RolloutEnv) (s : RunInference.State)
    (hr : reachedTarget env (RunInference.stepConfig env s) = false) :
    RunInference.rolloutStep env s =
      (⟨RunInference.stepConfigNorm env s,
        s.trajectory ++ [RunInference.stepConfig env s],
        updateRobotPoints s.pointCloud
          (env.robotSampler (RunInference.stepConfig env s))⟩, false) := by
  unfold RunInference.rolloutStep
  simp [hr]

/-- An interactive loop whose success criterion never fires takes all of its
iterations, appends one configuration per iteration, and leaves the success
flag as it found it. -/
lemma planLoop_exhausts (env : RolloutEnv)
    (h : ∀ q, reachedTarget env q = false) :
    ∀ (n : ℕ) (s : MpinetsRos.State),
      (MpinetsRos.planLoop env n s).trajectory.length = s.trajectory.length + n ∧
        (MpinetsRos.planLoop env n s).success = s.success := by
  intro n
  induction n with
  | zero => intro s; simp [MpinetsRos.planLoop]
  | succ n ih =>
    intro s
    have hstep := planStep_of_not_reached env s (h _)
    simp only [MpinetsRos.planLoop, hstep]
    rcases ih ⟨MpinetsRos.stepConfigNorm env s,
      s.trajectory ++ [MpinetsRos.stepConfig env s],
      updateRobotPoints s.pointCloud
        (env.robotSampler (MpinetsRos.stepConfig env s)), s.success⟩ with ⟨h1, h2⟩
    refine ⟨?_, by simpa using h2⟩
    simp only [Bool.false_eq_true, if_false] at h1 ⊢
    rw [h1]
    simp [List.length_append]
    omega

/-- An offline loop whose success criterion never fires takes all of its
iterations, appends one configuration per iteration, and never reports an
early break. -/
lemma rolloutLoop_exhausts (env : RolloutEnv)
    (h : ∀ q, reachedTarget env q = false) :
    ∀ (n : ℕ) (s : RunInference.State),
      (RunInference.rolloutLoop env n s).1.trajectory.length =
          s.trajectory.length + n ∧
        (RunInference.rolloutLoop env n s).2 = false := by
  intro n
  induction n with
  | zero => intro s; simp [RunInference.rolloutLoop]
  | succ n ih =>
    intro s
    have hstep := rolloutStep_of_not_reached env s (h _)
    simp only [RunInference.rolloutLoop, hstep]
    rcases ih ⟨RunInference.stepConfigNorm env s,
      s.trajectory ++ [RunInference.stepConfig env s],
      updateRobotPoints s.pointCloud
        (env.robotSampler (RunInference.stepConfig env s))⟩ with ⟨h1, h2⟩
    refine ⟨?_, by simpa using h2⟩
    simp only [Bool.false_eq_true, if_false] at h1 ⊢
    rw [h1]
    simp [List.length_append]
    omega

/-- One interactive iteration never touches rows at or above
`NUM_ROBOT_POINTS`, nor the label column. -/
lemma planStep_cloud_untouched (env : RolloutEnv) (s : MpinetsRos.State)
    (i : Fin TOTAL_POINTS) (j : Fin 4)
    (h : NUM_ROBOT_POINTS ≤ (i : ℕ) ∨ (j : ℕ) = 3) :
    (MpinetsRos.planStep env s).1.pointCloud i j = s.pointCloud i j := by
  unfold MpinetsRos.planStep
  dsimp only
  split
  · rfl
  · exact updateRobotPoints_untouched _ _ i j h

/-- One offline iteration never touches rows at or above
`NUM_ROBOT_POINTS`, nor the label column. -/
lemma rolloutStep_cloud_untouched (env : RolloutEnv) (s : RunInference.State)
    (i : Fin TOTAL_POINTS) (j : Fin 4)
    (h : NUM_ROBOT_POINTS ≤ (i : ℕ) ∨ (j : ℕ) = 3) :
    (RunInference.rolloutStep env s).1.pointCloud i j = s.pointCloud i j := by
  unfold RunInference.rolloutStep
  dsimp only
  split
  · rfl
  · exact updateRobotPoints_untouched _ _ i j h

/-- Across a whole interactive rollout, rows at or above `NUM_ROBOT_POINTS`
and the label column keep the values they had on loop entry. -/
lemma planLoop_cloud_invariant (env : RolloutEnv) (i : Fin TOTAL_POINTS)
    (j : Fin 4) (h : NUM_ROBOT_POINTS ≤ (i : ℕ) ∨ (j : ℕ) = 3) :
    ∀ (n : ℕ) (s : MpinetsRos.State),
      (MpinetsRos.planLoop env n s).pointCloud i j = s.pointCloud i j := by
  intro n
  induction n with
  | zero => intro s; simp [MpinetsRos.planLoop]
  | succ n ih =>
    intro s
    simp only [MpinetsRos.planLoop]
    split
    · exact planStep_cloud_untouched env s i j h
    · rw [ih]
      exact planStep_cloud_untouched env s i j h

/-- Across a whole offline rollout, rows at or above `NUM_ROBOT_POINTS` and
the label column keep the values they had on loop entry. -/
lemma rolloutLoop_cloud_invariant (env : RolloutEnv) (i : Fin TOTAL_POINTS)
    (j : Fin 4) (h : NUM_ROBOT_POINTS ≤ (i : ℕ) ∨ (j : ℕ) = 3) :
    ∀ (n : ℕ) (s : RunInference.State),
      (RunInference.rolloutLoop env n s).1.pointCloud i j = s.pointCloud i j := by
  intro n
  induction n with
  | zero => intro s; simp [RunInference.rolloutLoop]
  | succ n ih =>
    intro s
    simp only [RunInference.rolloutLoop]
    split
    · exact rolloutStep_cloud_untouched env s i j h
    · rw [ih]
      exact rolloutStep_cloud_untouched env s i j h

/-- The interactive and offline loops, run from the same normalized
configuration, trajectory and point cloud with the same iteration budget,
are the same computation; the interactive success flag equals the offline
break indicator. -/
lemma planLoop_eq_rolloutLoop (env : RolloutEnv) :
    ∀ (n : ℕ) (qn : Config) (traj : List Config) (pc : Cloud),
      MpinetsRos.planLoop env n ⟨qn, traj, pc, false⟩ =
        ⟨(RunInference.rolloutLoop env n ⟨qn, traj, pc⟩).1.qNorm,
         (RunInference.rolloutLoop env n ⟨qn, traj, pc⟩).1.trajectory,
         (RunInference.rolloutLoop env n ⟨qn, traj, pc⟩).1.pointCloud,
         (RunInference.rolloutLoop env n ⟨qn, traj, pc⟩).2⟩ := by
  intro n
  induction n with
  | zero => intro qn traj pc; rfl
  | succ n ih =>
    intro qn traj pc
    simp only [MpinetsRos.planLoop, RunInference.rolloutLoop,
      MpinetsRos.planStep, RunInference.rolloutStep,
      MpinetsRos.stepConfig, RunInference.stepConfig,
      MpinetsRos.stepConfigNorm, RunInference.stepConfigNorm]
    by_cases hr : reachedTarget env
        (unnormalize_franka_joints env.limits
          (clampNorm (qn + env.mdl pc qn))) = true
    · simp [hr]
    · simp only [hr, Bool.false_eq_true, if_false]
      exact ih _ _ _

/-- The label column of a freshly built cloud is the stacked base buffer. -/
lemma buildPointCloud_label (r o t : ℕ → Fin 3 → ℚ) (i : Fin TOTAL_POINTS)
    (j : Fin 4) (hj : (j : ℕ) = 3) :
    buildPointCloud r o t i j = stackedLabels i j := by
  unfold buildPointCloud
  rw [writeXyz_untouched _ _ _ _ _ _ (Or.inr hj),
    writeXyz_untouched _ _ _ _ _ _ (Or.inr hj),
    writeXyz_untouched _ _ _ _ _ _ (Or.inr hj)]

/-- The first `NUM_ROBOT_POINTS` xyz rows of a freshly built cloud are the
robot samples. -/
lemma buildPointCloud_robot (r o t : ℕ → Fin 3 → ℚ) (i : Fin TOTAL_POINTS)
    (j : Fin 4) (hj : (j : ℕ) < 3) (hi : (i : ℕ) < NUM_ROBOT_POINTS) :
    buildPointCloud r o t i j = r (i : ℕ) ⟨(j : ℕ), hj⟩ := by
  unfold buildPointCloud writeXyz
  simp only [dif_pos hj]
  rw [if_neg (by omega :
      ¬(NUM_ROBOT_POINTS + NUM_OBSTACLE_POINTS ≤ (i : ℕ) ∧
        (i : ℕ) < NUM_ROBOT_POINTS + NUM_OBSTACLE_POINTS + NUM_TARGET_POINTS)),
    if_neg (by omega :
      ¬(NUM_ROBOT_POINTS ≤ (i : ℕ) ∧
        (i : ℕ) < NUM_ROBOT_POINTS + NUM_OBSTACLE_POINTS)),
    if_pos ⟨Nat.zero_le _, by omega⟩, Nat.sub_zero]

/-- The middle `NUM_OBSTACLE_POINTS` xyz rows of a freshly built cloud are the
obstacle points. -/
lemma buildPointCloud_obstacle (r o t : ℕ → Fin 3 → ℚ) (i : Fin TOTAL_POINTS)
    (j : Fin 4) (hj : (j : ℕ) < 3) (hlo : NUM_ROBOT_POINTS ≤ (i : ℕ))
    (hhi : (i : ℕ) < NUM_ROBOT_POINTS + NUM_OBSTACLE_POINTS) :
    buildPointCloud r o t i j = o ((i : ℕ) - NUM_ROBOT_POINTS) ⟨(j : ℕ), hj⟩ := by
  unfold buildPointCloud writeXyz
  simp only [dif_pos hj]
  rw [if_neg (by omega :
      ¬(NUM_ROBOT_POINTS + NUM_OBSTACLE_POINTS ≤ (i : ℕ) ∧
        (i : ℕ) < NUM_ROBOT_POINTS + NUM_OBSTACLE_POINTS + NUM_TARGET_POINTS)),
    if_pos ⟨hlo, hhi⟩]

/-- The last `NUM_TARGET_POINTS` xyz rows of a freshly built cloud are the
target points. -/
lemma buildPointCloud_target (r o t : ℕ → Fin 3 → ℚ) (i : Fin TOTAL_POINTS)
    (j : Fin 4) (hj : (j : ℕ) < 3)
    (hlo : NUM_ROBOT_POINTS + NUM_OBSTACLE_POINTS ≤ (i : ℕ)) :
    buildPointCloud r o t i j =
      t ((i : ℕ) - (NUM_ROBOT_POINTS + NUM_OBSTACLE_POINTS)) ⟨(j : ℕ), hj⟩ := by
  have hi : (i : ℕ) < NUM_ROBOT_POINTS + NUM_OBSTACLE_POINTS + NUM_TARGET_POINTS := i.2
  unfold buildPointCloud writeXyz
  simp only [dif_pos hj]
  rw [if_pos ⟨hlo, hi⟩]

/-- The break indicator of an interactive iteration is exactly the success
test at the freshly computed configuration. -/
lemma planStep_snd (env : RolloutEnv) (s : MpinetsRos.State) :
    (MpinetsRos.planStep env s).2 =
      reachedTarget env (MpinetsRos.stepConfig env s) := by
  unfold MpinetsRos.planStep
  dsimp only
  split
  · simp_all
  · simp_all

/-- The break indicator of an offline iteration is exactly the success test
at the freshly computed configuration. -/
lemma rolloutStep_snd (env : RolloutEnv) (s : RunInference.State) :
    (RunInference.rolloutStep env s).2 =
      reachedTarget env (RunInference.stepConfig env s) := by
  unfold RunInference.rolloutStep
  dsimp only
  split
  · simp_all
  · simp_all

/-- Starting from a not-yet-successful state, the interactive iteration sets
the success flag exactly when the success test passes. -/
lemma planStep_success (env : RolloutEnv) (s : MpinetsRos.State)
    (h : s.success = false) :
    (MpinetsRos.planStep env s).1.success =
      reachedTarget env (MpinetsRos.stepConfig env s) := by
  unfold MpinetsRos.planStep
  dsimp only
  split
  · simp_all
  · simp_all

/-- The normalized configuration after an interactive iteration is the
clamped update, whichever branch is taken. -/
lemma planStep_qNorm (env : RolloutEnv) (s : MpinetsRos.State) :
    (MpinetsRos.planStep env s).1.qNorm = MpinetsRos.stepConfigNorm env s := by
  unfold MpinetsRos.planStep
  dsimp only
  split
  · rfl
  · rfl

/-- The normalized configuration after an offline iteration is the clamped
update, whichever branch is taken. -/
lemma rolloutStep_qNorm (env : RolloutEnv) (s : RunInference.State) :
    (RunInference.rolloutStep env s).1.qNorm =
      RunInference.stepConfigNorm env s := by
  unfold RunInference.rolloutStep
  dsimp only
  split
  · rfl
  · rfl

/-- A concrete symmetric joint-limit table used to instantiate theorems. -/
def sampleLimits : JointLimits := ⟨fun _ => -2, fun _ => 2⟩

/-- The all-zero configuration, inside `sampleLimits`. -/
def zeroConfig : Config := fun _ => 0

/-- A configuration outside `sampleLimits` on every joint. -/
def outOfBoundsConfig : Config := fun _ => 3

/-- An all-zero scene buffer. -/
def zeroCloud : Cloud := fun _ _ => 0

/-- A concrete environment that reports the end effector one unit away from
the target whatever the configuration, with a zero-delta policy: its success
criterion never fires. -/
def farEnv : RolloutEnv where
  limits := sampleLimits
  mdl := fun _ _ => fun _ => 0
  robotSampler := fun _ _ _ => 0
  targetPoints := fun _ _ => 0
  effXyz := fun _ _ => 0
  relAngleDeg := fun _ => 0
  targetXyz := fun _ => 1

/-- `farEnv` keeps the end effector a full unit from the target, far beyond
the 1 cm tolerance. -/
lemma farEnv_never_reaches : ∀ q : Config, reachedTarget farEnv q = false := by
  intro q
  have h2 : ¬(sqDist (farEnv.effXyz q) farEnv.targetXyz < 1 / 10000) := by
    have h1 : sqDist (farEnv.effXyz q) farEnv.targetXyz = 3 := by
      simp [farEnv, sqDist]
      norm_num
    rw [h1]
    norm_num
  have hd : decide (sqDist (farEnv.effXyz q) farEnv.targetXyz < 1 / 10000) = false :=
    decide_eq_false h2
  unfold reachedTarget
  rw [hd]
  exact Bool.false_and _

/-- A quiescent interactive loop state. -/
def idleState : MpinetsRos.State := ⟨zeroConfig, [], zeroCloud, false⟩

/-- A quiescent offline loop state. -/
def idleStateOffline : RunInference.State := ⟨zeroConfig, [], zeroCloud⟩

/-- Row 0: inside the robot segment. -/
def robotRow : Fin TOTAL_POINTS := ⟨0, by decide⟩

/-- Row 2048: the first obstacle row. -/
def obstacleRow : Fin TOTAL_POINTS := ⟨2048, by decide⟩

/-- Column 0: the x coordinate. -/
def xCol : Fin 4 := ⟨0, by decide⟩

/-- Column 3: the label channel. -/
def labelCol : Fin 4 := ⟨3, by decide⟩

/-- C1: the rollout loop terminates with success exactly when, after applying
a step, the Euclidean distance between the new end-effector position and the
target position is strictly below 0.01 and the absolute shortest-path
relative-rotation angle in degrees is strictly below 15; if either comparison
fails the step does not terminate the loop with success.  Stated for the break
indicator and the success flag of the interactive loop body and for the break
indicator of the offline loop body. -/
theorem claim_C1_termination_test (env : RolloutEnv) (s : MpinetsRos.State)
    (s' : RunInference.State) :
    ((MpinetsRos.planStep env s).2 = true ↔
        Real.sqrt ((sqDist (env.effXyz (MpinetsRos.stepConfig env s))
            env.targetXyz : ℚ) : ℝ) < 1 / 100 ∧
          |env.relAngleDeg (MpinetsRos.stepConfig env s)| < 15) ∧
      (s.success = false →
        ((MpinetsRos.planStep env s).1.success = true ↔
          Real.sqrt ((sqDist (env.effXyz (MpinetsRos.stepConfig env s))
              env.targetXyz : ℚ) : ℝ) < 1 / 100 ∧
            |env.relAngleDeg (MpinetsRos.stepConfig env s)| < 15)) ∧
      ((RunInference.rolloutStep env s').2 = true ↔
        Real.sqrt ((sqDist (env.effXyz (RunInference.stepConfig env s'))
            env.targetXyz : ℚ) : ℝ) < 1 / 100 ∧
          |env.relAngleDeg (RunInference.stepConfig env s')| < 15) := by
  refine ⟨?_, ?_, ?_⟩
  · rw [planStep_snd]
    exact reachedTarget_iff env _
  · intro hs
    rw [planStep_success env s hs]
    exact reachedTarget_iff env _
  · rw [rolloutStep_snd]
    exact reachedTarget_iff env _

/-- Witness for C1 at a concrete environment and state. -/
theorem claim_C1_witness :
    (MpinetsRos.planStep farEnv idleState).1.success = true ↔
      Real.sqrt ((sqDist (farEnv.effXyz (MpinetsRos.stepConfig farEnv idleState))
          farEnv.targetXyz : ℚ) : ℝ) < 1 / 100 ∧
        |farEnv.relAngleDeg (MpinetsRos.stepConfig farEnv idleState)| < 15 :=
  (claim_C1_termination_test farEnv idleState idleStateOffline).2.1 rfl

/-- C4: the interactive and offline rollout loops have identical loop bodies
and termination tests: from the same normalized configuration, trajectory,
point cloud, policy environment and step budget they produce the same final
state, and the interactive success flag equals the offline early-break
indicator; the variants differ only in their configured budgets (30
interactive, 150 offline). -/
theorem claim_C4_interactive_offline_agree (env : RolloutEnv) (n : ℕ)
    (qn : Config) (traj : List Config) (pc : Cloud) :
    (MpinetsRos.planLoop env n ⟨qn, traj, pc, false⟩ =
        ⟨(RunInference.rolloutLoop env n ⟨qn, traj, pc⟩).1.qNorm,
         (RunInference.rolloutLoop env n ⟨qn, traj, pc⟩).1.trajectory,
         (RunInference.rolloutLoop env n ⟨qn, traj, pc⟩).1.pointCloud,
         (RunInference.rolloutLoop env n ⟨qn, traj, pc⟩).2⟩) ∧
      MpinetsRos.MAX_ROLLOUT_LENGTH = 30 ∧
        RunInference.MAX_ROLLOUT_LENGTH = 150 :=
  ⟨planLoop_eq_rolloutLoop env n qn traj pc, rfl, rfl⟩

/-- C6: between consecutive iterations only the xyz values of the first
`NUM_ROBOT_POINTS` rows may change: a single iteration (of either variant)
and a whole rollout leave every row at or above `NUM_ROBOT_POINTS` and the
label channel of every row exactly as they were. -/
theorem claim_C6_only_robot_rows_mutate (env : RolloutEnv)
    (s : MpinetsRos.State) (s' : RunInference.State) (n : ℕ)
    (i : Fin TOTAL_POINTS) (j : Fin 4)
    (h : NUM_ROBOT_POINTS ≤ (i : ℕ) ∨ (j : ℕ) = 3) :
    (MpinetsRos.planStep env s).1.pointCloud i j = s.pointCloud i j ∧
      (RunInference.rolloutStep env s').1.pointCloud i j = s'.pointCloud i j ∧
      (MpinetsRos.planLoop env n s).pointCloud i j = s.pointCloud i j ∧
      (RunInference.rolloutLoop env n s').1.pointCloud i j = s'.pointCloud i j :=
  ⟨planStep_cloud_untouched env s i j h,
    rolloutStep_cloud_untouched env s' i j h,
    planLoop_cloud_invariant env i j h n s,
    rolloutLoop_cloud_invariant env i j h n s'⟩

/-- Witness for C6 at the first obstacle row of a concrete rollout. -/
theorem claim_C6_witness :
    (MpinetsRos.planStep farEnv idleState).1.pointCloud obstacleRow xCol =
        idleState.pointCloud obstacleRow xCol ∧
      (RunInference.rolloutStep farEnv idleStateOffline).1.pointCloud obstacleRow xCol =
        idleStateOffline.pointCloud obstacleRow xCol ∧
      (MpinetsRos.planLoop farEnv 5 idleState).pointCloud obstacleRow xCol =
        idleState.pointCloud obstacleRow xCol ∧
      (RunInference.rolloutLoop farEnv 5 idleStateOffline).1.pointCloud obstacleRow xCol =
        idleStateOffline.pointCloud obstacleRow xCol :=
  claim_C6_only_robot_rows_mutate farEnv idleState idleStateOffline 5
    obstacleRow xCol (Or.inl (by decide))

/-- C7: every constructed scene point cloud has exactly
`NUM_ROBOT_POINTS + NUM_OBSTACLE_POINTS + NUM_TARGET_POINTS` rows and 4
columns (its type), stacked in the fixed order robot, obstacle, target, and
the label column is constant per segment: 0 on robot rows, 1 on obstacle
rows, 2 on target rows. -/
theorem claim_C7_point_cloud_layout (r o t : ℕ → Fin 3 → ℚ)
    (i : Fin TOTAL_POINTS) (j : Fin 4) :
    TOTAL_POINTS = NUM_ROBOT_POINTS + NUM_OBSTACLE_POINTS + NUM_TARGET_POINTS ∧
      ((j : ℕ) = 3 →
        (((i : ℕ) < NUM_ROBOT_POINTS → buildPointCloud r o t i j = 0) ∧
          (NUM_ROBOT_POINTS ≤ (i : ℕ) ∧
              (i : ℕ) < NUM_ROBOT_POINTS + NUM_OBSTACLE_POINTS →
            buildPointCloud r o t i j = 1) ∧
          (NUM_ROBOT_POINTS + NUM_OBSTACLE_POINTS ≤ (i : ℕ) →
            buildPointCloud r o t i j = 2))) ∧
      (∀ hj : (j : ℕ) < 3,
        (((i : ℕ) < NUM_ROBOT_POINTS →
            buildPointCloud r o t i j = r (i : ℕ) ⟨(j : ℕ), hj⟩) ∧
          (NUM_ROBOT_POINTS ≤ (i : ℕ) ∧
              (i : ℕ) < NUM_ROBOT_POINTS + NUM_OBSTACLE_POINTS →
            buildPointCloud r o t i j =
              o ((i : ℕ) - NUM_ROBOT_POINTS) ⟨(j : ℕ), hj⟩) ∧
          (NUM_ROBOT_POINTS + NUM_OBSTACLE_POINTS ≤ (i : ℕ) →
            buildPointCloud r o t i j =
              t ((i : ℕ) - (NUM_ROBOT_POINTS + NUM_OBSTACLE_POINTS))
                ⟨(j : ℕ), hj⟩))) := by
  refine ⟨rfl, ?_, ?_⟩
  · intro hj
    refine ⟨?_, ?_, ?_⟩
    · intro hi
      rw [buildPointCloud_label r o t i j hj]
      unfold stackedLabels
      rw [if_pos hi]
    · rintro ⟨hlo, hhi⟩
      rw [buildPointCloud_label r o t i j hj]
      unfold stackedLabels
      rw [if_neg (by omega), if_pos hhi]
    · intro hlo
      rw [buildPointCloud_label r o t i j hj]
      unfold stackedLabels
      rw [if_neg (by omega), if_neg (by omega)]
  · intro hj
    exact ⟨fun hi => buildPointCloud_robot r o t i j hj hi,
      fun h => buildPointCloud_obstacle r o t i j hj h.1 h.2,
      fun h => buildPointCloud_target r o t i j hj h⟩

/-- Witness for C7: label values on a concrete robot row and obstacle row. -/
theorem claim_C7_witness :
    buildPointCloud (fun _ _ => 5) (fun _ _ => 6) (fun _ _ => 7) robotRow labelCol = 0 ∧
      buildPointCloud (fun _ _ => 5) (fun _ _ => 6) (fun _ _ => 7) obstacleRow labelCol = 1 :=
  ⟨((claim_C7_point_cloud_layout (fun _ _ => 5) (fun _ _ => 6) (fun _ _ => 7)
      robotRow labelCol).2.1 rfl).1 (by decide),
    ((claim_C7_point_cloud_layout (fun _ _ => 5) (fun _ _ => 6) (fun _ _ => 7)
      obstacleRow labelCol).2.1 rfl).2.1 (by decide)⟩

/-- C8: normalization and unnormalization are a left-and-right inverse pair of
element-wise affine maps: on configurations strictly inside the joint limits
the round trip through normalize is the identity, and on normalized vectors
strictly inside (-1, 1) the round trip through unnormalize is the identity. -/
theorem claim_C8_normalize_unnormalize_roundtrip (L : JointLimits)
    (hL : ∀ i, L.low i < L.high i) :
    (∀ q : Config, (∀ i, L.low i < q i ∧ q i < L.high i) →
        unnormalize_franka_joints L (normalize_franka_joints L q) = q) ∧
      (∀ v : Config, (∀ i, -1 < v i ∧ v i < 1) →
        normalize_franka_joints L (unnormalize_franka_joints L v) = v) := by
  constructor
  · intro q hq
    funext i
    have hne : L.high i - L.low i ≠ 0 := sub_ne_zero.mpr (ne_of_gt (hL i))
    unfold unnormalize_franka_joints normalize_franka_joints
    field_simp
    ring
  · intro v hv
    funext i
    have hne : L.high i - L.low i ≠ 0 := sub_ne_zero.mpr (ne_of_gt (hL i))
    unfold normalize_franka_joints unnormalize_franka_joints
    field_simp
    ring

/-- Witness for C8 at the symmetric limit table and the zero configuration. -/
theorem claim_C8_witness :
    unnormalize_franka_joints sampleLimits
        (normalize_franka_joints sampleLimits zeroConfig) = zeroConfig :=
  (claim_C8_normalize_unnormalize_roundtrip sampleLimits
      (fun i => by norm_num [sampleLimits])).1 zeroConfig
    (fun i => by norm_num [sampleLimits, zeroConfig])

/-- C9: after every delta application — whatever the policy returned — the
new normalized configuration is clamped into [-1, 1] element-wise, in both
loop variants. -/
theorem claim_C9_normalized_clamped (env : RolloutEnv) (s : MpinetsRos.State)
    (s' : RunInference.State) (i : Fin 7) :
    (-1 ≤ (MpinetsRos.planStep env s).1.qNorm i ∧
        (MpinetsRos.planStep env s).1.qNorm i ≤ 1) ∧
      (-1 ≤ (RunInference.rolloutStep env s').1.qNorm i ∧
        (RunInference.rolloutStep env s').1.qNorm i ≤ 1) := by
  rw [planStep_qNorm, rolloutStep_qNorm]
  exact ⟨clampNorm_bounds _ i, clampNorm_bounds _ i⟩

/-- C2: for every policy environment whose success criterion never fires and
every in-bounds start, the interactive planner takes all
`MAX_ROLLOUT_LENGTH` iterations and returns success false with a trajectory
of length `MAX_ROLLOUT_LENGTH + 1` (the initial configuration plus one entry
per step, never empty), and the offline rollout likewise returns a
trajectory of length `MAX_ROLLOUT_LENGTH + 1` for its own budget. -/
theorem claim_C2_budget_exhaustion (env : RolloutEnv) (q0 : Config)
    (obstaclePts : ℕ → Fin 3 → ℚ) (pc : Cloud)
    (hnever : ∀ q, reachedTarget env q = false)
    (hq0 : (∀ i, env.limits.low i ≤ q0 i) ∧ (∀ i, q0 i ≤ env.limits.high i)) :
    (∃ traj : List Config,
        MpinetsRos.plan env q0 obstaclePts = .ok (false, traj) ∧
          traj.length = MpinetsRos.MAX_ROLLOUT_LENGTH + 1) ∧
      (RunInference.rollout_until_success env q0 pc).length =
        RunInference.MAX_ROLLOUT_LENGTH + 1 := by
  constructor
  · obtain ⟨hlen, hsucc⟩ := planLoop_exhausts env hnever MpinetsRos.MAX_ROLLOUT_LENGTH
      ⟨normalize_franka_joints env.limits q0, [q0],
        buildPointCloud (env.robotSampler q0) obstaclePts env.targetPoints, false⟩
    refine ⟨(MpinetsRos.planLoop env MpinetsRos.MAX_ROLLOUT_LENGTH
      ⟨normalize_franka_joints env.limits q0, [q0],
        buildPointCloud (env.robotSampler q0) obstaclePts env.targetPoints,
        false⟩).trajectory, ?_, ?_⟩
    · unfold MpinetsRos.plan MpinetsRos.planBody
      rw [if_pos hq0]
      dsimp only
      rw [hsucc]
    · rw [hlen]
      simp [MpinetsRos.MAX_ROLLOUT_LENGTH]
  · unfold RunInference.rollout_until_success
    obtain ⟨hlen, _⟩ := rolloutLoop_exhausts env hnever RunInference.MAX_ROLLOUT_LENGTH
      ⟨normalize_franka_joints env.limits q0, [q0], pc⟩
    rw [hlen]
    simp [RunInference.MAX_ROLLOUT_LENGTH]

/-- Witness for C2: a zero-delta policy started a full unit from the target
exhausts both budgets. -/
theorem claim_C2_witness :
    (∃ traj : List Config,
        MpinetsRos.plan farEnv zeroConfig (fun _ _ => 0) = .ok (false, traj) ∧
          traj.length = MpinetsRos.MAX_ROLLOUT_LENGTH + 1) ∧
      (RunInference.rollout_until_success farEnv zeroConfig zeroCloud).length =
        RunInference.MAX_ROLLOUT_LENGTH + 1 :=
  claim_C2_budget_exhaustion farEnv zeroConfig (fun _ _ => 0) zeroCloud
    farEnv_never_reaches
    ⟨fun i => by norm_num [farEnv, sampleLimits, zeroConfig],
      fun i => by norm_num [farEnv, sampleLimits, zeroConfig]⟩

/-- C3: for every start configuration inside the per-joint limits (bounds
inclusive) `plan` passes its precondition check and returns a result; for
every start with at least one joint out of bounds it fails fast with the
assertion message, for every environment — in particular whatever the policy
model is, so the model is never consulted. -/
theorem claim_C3_joint_limit_precondition (q0 : Config) :
    (∀ env : RolloutEnv,
        ((∀ i, env.limits.low i ≤ q0 i) ∧ (∀ i, q0 i ≤ env.limits.high i)) →
          ∀ obstaclePts, ∃ r, MpinetsRos.plan env q0 obstaclePts = .ok r) ∧
      (∀ env : RolloutEnv,
        (∃ i, q0 i < env.limits.low i ∨ env.limits.high i < q0 i) →
          ∀ obstaclePts,
            MpinetsRos.plan env q0 obstaclePts = .error MpinetsRos.limitsMsg) := by
  constructor
  · intro env h obstaclePts
    refine ⟨MpinetsRos.planBody env q0 obstaclePts, ?_⟩
    unfold MpinetsRos.plan
    rw [if_pos h]
  · intro env h obstaclePts
    have hn : ¬((∀ i, env.limits.low i ≤ q0 i) ∧
        (∀ i, q0 i ≤ env.limits.high i)) := by
      rcases h with ⟨i, hi | hi⟩
      · intro hc
        exact absurd (hc.1 i) (not_le.mpr hi)
      · intro hc
        exact absurd (hc.2 i) (not_le.mpr hi)
    unfold MpinetsRos.plan
    rw [if_neg hn]

/-- Witness for C3: an in-bounds start plans, an out-of-bounds start is
rejected. -/
theorem claim_C3_witness :
    (∃ r, MpinetsRos.plan farEnv zeroConfig (fun _ _ => 0) = .ok r) ∧
      MpinetsRos.plan farEnv outOfBoundsConfig (fun _ _ => 0) =
        .error MpinetsRos.limitsMsg :=
  ⟨(claim_C3_joint_limit_precondition zeroConfig).1 farEnv
      ⟨fun i => by norm_num [farEnv, sampleLimits, zeroConfig],
        fun i => by norm_num [farEnv, sampleLimits, zeroConfig]⟩ (fun _ _ => 0),
    (claim_C3_joint_limit_precondition outOfBoundsConfig).2 farEnv
      ⟨0, Or.inr (by norm_num [farEnv, sampleLimits, outOfBoundsConfig])⟩
      (fun _ _ => 0)⟩

/-- A cylinder of radius 0.1 and height 0.4 at the origin with identity
orientation. -/
def sampleCylinder : Obstacle := .cylinder (fun _ => 0) (1 / 10) (2 / 5) ![1, 0, 0, 0]

/-- A box obstacle, untouched by the substitution. -/
def sampleCuboid : Obstacle := .cuboid ![1, 1, 1] ![1, 2, 3] ![1, 0, 0, 0]

/-- C5 evidence: the replacement loop present in
`load_primitive_problem_data` and `visualize_results` turns the sample
cylinder into the (0.2, 0.2, 0.4) box at the same center and orientation and
leaves the box unchanged — but `calculate_metrics` passes the very same
obstacle list to point-cloud sampling without any substitution, so the
substitution is not applied on every consumption path. -/
theorem claim_C5_metrics_path_lacks_substitution :
    substituteCylinders [sampleCylinder, sampleCuboid] =
        [.cuboid (fun _ => 0) ![1 / 5, 1 / 5, 2 / 5] ![1, 0, 0, 0], sampleCuboid] ∧
      MpinetsRos.loadPrimitiveProblemObstacles [sampleCylinder, sampleCuboid] =
        substituteCylinders [sampleCylinder, sampleCuboid] ∧
      RunInference.visualizeResultsObstacles [sampleCylinder, sampleCuboid] =
        substituteCylinders [sampleCylinder, sampleCuboid] ∧
      RunInference.calculateMetricsObstacles [sampleCylinder, sampleCuboid] =
        [sampleCylinder, sampleCuboid] ∧
      RunInference.calculateMetricsObstacles [sampleCylinder, sampleCuboid] ≠
        substituteCylinders [sampleCylinder, sampleCuboid] := by
  refine ⟨?_, rfl, rfl, rfl, ?_⟩
  · simp [substituteCylinders, sampleCylinder, sampleCuboid, replaceCylinder]
    norm_num
  · simp [RunInference.calculateMetricsObstacles, substituteCylinders,
      sampleCylinder, sampleCuboid, replaceCylinder]

/-- C10: obstacle sub-sampling draws exactly `NUM_OBSTACLE_POINTS` indices
without replacement: on any source with at least that many rows,
`clean_point_cloud` returns exactly `NUM_OBSTACLE_POINTS` rows taken from the
source at pairwise-distinct valid indices and `make_point_cloud_from_problem`
builds its obstacle segment the same way; on any smaller source both raise
the numpy ValueError instead of returning data. -/
theorem claim_C10_subsampling_without_replacement
    (points : List ((Fin 3 → ℚ) × (Fin 4 → ℚ))) (srcPts : List (Fin 3 → ℚ))
    (env : RolloutEnv) (q0 : Config) (rand : ℕ → ℕ) :
    (NUM_OBSTACLE_POINTS ≤ points.length →
        ∃ idxs : List ℕ, idxs.length = NUM_OBSTACLE_POINTS ∧ idxs.Nodup ∧
          (∀ m ∈ idxs, m < points.length) ∧
          MpinetsRos.clean_point_cloud points rand =
            .ok (idxs.map (fun m => points.getD m (fun _ => 0, fun _ => 0)))) ∧
      (points.length < NUM_OBSTACLE_POINTS →
        MpinetsRos.clean_point_cloud points rand = .error sampleTooLargeMsg) ∧
      (NUM_OBSTACLE_POINTS ≤ srcPts.length →
        ∃ idxs : List ℕ, idxs.length = NUM_OBSTACLE_POINTS ∧ idxs.Nodup ∧
          (∀ m ∈ idxs, m < srcPts.length) ∧
          RunInference.make_point_cloud_from_problem env q0 srcPts rand =
            .ok (buildPointCloud (env.robotSampler q0)
              (fun m => srcPts.getD (idxs.getD m 0) (fun _ => 0))
              env.targetPoints)) ∧
      (srcPts.length < NUM_OBSTACLE_POINTS →
        RunInference.make_point_cloud_from_problem env q0 srcPts rand =
          .error sampleTooLargeMsg) := by
  refine ⟨?_, ?_, ?_, ?_⟩
  · intro h
    obtain ⟨idxs, hok, hlen, hnd, hmem⟩ :=
      npRandomChoice_ok points.length NUM_OBSTACLE_POINTS rand h
    refine ⟨idxs, hlen, hnd, hmem, ?_⟩
    unfold MpinetsRos.clean_point_cloud
    simp only [MpinetsRos.PROBLEM_SET, Bool.not_true, Bool.false_eq_true, if_false]
    rw [hok]
    rfl
  · intro h
    unfold MpinetsRos.clean_point_cloud
    simp only [MpinetsRos.PROBLEM_SET, Bool.not_true, Bool.false_eq_true, if_false]
    rw [npRandomChoice_err points.length NUM_OBSTACLE_POINTS rand h]
    rfl
  · intro h
    obtain ⟨idxs, hok, hlen, hnd, hmem⟩ :=
      npRandomChoice_ok srcPts.length NUM_OBSTACLE_POINTS rand h
    refine ⟨idxs, hlen, hnd, hmem, ?_⟩
    unfold RunInference.make_point_cloud_from_problem
    rw [hok]
    rfl
  · intro h
    unfold RunInference.make_point_cloud_from_problem
    rw [npRandomChoice_err srcPts.length NUM_OBSTACLE_POINTS rand h]
    rfl

/-- A source cloud with exactly `NUM_OBSTACLE_POINTS` rows. -/
def bigSource : List ((Fin 3 → ℚ) × (Fin 4 → ℚ)) :=
  List.replicate 4096 (fun _ => 0, fun _ => 0)

/-- Witness for C10: the big source is accepted, the empty source raises. -/
theorem claim_C10_witness :
    (∃ idxs : List ℕ, idxs.length = NUM_OBSTACLE_POINTS ∧ idxs.Nodup ∧
        (∀ m ∈ idxs, m < bigSource.length) ∧
        MpinetsRos.clean_point_cloud bigSource (fun _ => 0) =
          .ok (idxs.map (fun m => bigSource.getD m (fun _ => 0, fun _ => 0)))) ∧
      RunInference.make_point_cloud_from_problem farEnv zeroConfig [] (fun _ => 0) =
        .error sampleTooLargeMsg :=
  ⟨(claim_C10_subsampling_without_replacement bigSource [] farEnv zeroConfig
        (fun _ => 0)).1
      (by unfold bigSource NUM_OBSTACLE_POINTS
          rw [List.length_replicate]),
    (claim_C10_subsampling_without_replacement bigSource [] farEnv zeroConfig
        (fun _ => 0)).2.2.2 (by norm_num [NUM_OBSTACLE_POINTS])⟩
